import Mathlib

/-!
Verification development for the ContractIQ frontend core: the risk
classification utilities (frontend/js/config.js), the dashboard sort/filter
semantics (frontend/js/dashboard.js), the upload pipeline validation and
progress reporting (frontend/js/app.js), and the chat session protocol
(the unnamed chat module).

JavaScript strings are modelled as Lean `String`; the JS string primitives
`toLowerCase`, `endsWith` and `trim` are given executable models over the
underlying character list so that concrete runs evaluate inside the kernel.
JS numbers appearing here are integers in every reachable use (risk scores,
byte sizes, step indices), so they are modelled as `Int`/`Nat`.
-/

namespace ContractIQ

/-- Model of JavaScript `String.prototype.toLowerCase` (ASCII range, which is
the only range the repository compares: file extensions and risk-level tags). -/
def strToLower (s : String) : String := ⟨s.data.map Char.toLower⟩

/-- Model of JavaScript `String.prototype.endsWith`: `post` matches the final
characters of `s`. -/
def strEndsWith (s post : String) : Bool :=
  decide (post.data = s.data.drop (s.data.length - post.data.length))

/-- Model of JavaScript `String.prototype.trim`: strip whitespace from both
ends. -/
def strTrim (s : String) : String :=
  ⟨((s.data.dropWhile Char.isWhitespace).reverse.dropWhile Char.isWhitespace).reverse⟩

/-- One band of `RISK_CONFIG` in config.js: inclusive score bounds plus the
display color and label. -/
structure RiskBand where
  min : Int
  max : Int
  color : String
  label : String
  deriving DecidableEq, Repr

/-- config.js `RISK_CONFIG.HIGH`. -/
def RISK_CONFIG_HIGH : RiskBand := ⟨60, 100, "#ef4444", "HIGH RISK"⟩

/-- config.js `RISK_CONFIG.MEDIUM`. -/
def RISK_CONFIG_MEDIUM : RiskBand := ⟨30, 59, "#f59e0b", "MEDIUM RISK"⟩

/-- config.js `RISK_CONFIG.LOW`. -/
def RISK_CONFIG_LOW : RiskBand := ⟨0, 29, "#10b981", "LOW RISK"⟩

/-- config.js `Utils.getRiskLevel`: first qualifying band from the top, testing
`score >= RISK_CONFIG.HIGH.min`, then `score >= RISK_CONFIG.MEDIUM.min`,
otherwise LOW. -/
def getRiskLevel (score : Int) : String :=
  if score ≥ RISK_CONFIG_HIGH.min then "HIGH"
  else if score ≥ RISK_CONFIG_MEDIUM.min then "MEDIUM"
  else "LOW"

/-- config.js `Utils.getRiskColor`: `RISK_CONFIG[level]?.color || '#6b7280'`.
`RISK_CONFIG` has exactly the own keys HIGH, MEDIUM and LOW, so any other
level string falls through to the gray fallback. -/
def getRiskColor (level : String) : String :=
  if level = "HIGH" then RISK_CONFIG_HIGH.color
  else if level = "MEDIUM" then RISK_CONFIG_MEDIUM.color
  else if level = "LOW" then RISK_CONFIG_LOW.color
  else "#6b7280"

/-- The four values of a clause finding's `risk_level` field (data-model
invariant: HIGH, MEDIUM and LOW for found clauses, NOT_FOUND for missing
ones). -/
inductive RiskLevel where
  | HIGH
  | MEDIUM
  | LOW
  | NOT_FOUND
  deriving DecidableEq, Repr

/-- The `risk_level` string carried by a clause finding on the wire. -/
def riskLevelStr : RiskLevel → String
  | .HIGH => "HIGH"
  | .MEDIUM => "MEDIUM"
  | .LOW => "LOW"
  | .NOT_FOUND => "NOT_FOUND"

/-- dashboard.js `createClauseElement`: `clause.risk_level.toLowerCase()`, the
tag stored in `dataset.riskLevel` and consulted by `filterClauses`. -/
def riskLevelLower (lv : RiskLevel) : String := strToLower (riskLevelStr lv)

/-- One clause finding of the extraction result, with the fields the dashboard
logic reads (display-only numeric locations and confidence are omitted). -/
structure Clause where
  clause_type : String
  found : Bool
  extracted_text : Option String
  risk_score : Int
  risk_level : RiskLevel
  deriving DecidableEq, Repr

/-- dashboard.js `renderClausesList`: the comparator's key object
`order = { HIGH: 0, MEDIUM: 1, LOW: 2, NOT_FOUND: 3 }`. -/
def riskOrder : RiskLevel → Nat
  | .HIGH => 0
  | .MEDIUM => 1
  | .LOW => 2
  | .NOT_FOUND => 3

/-- The ordering the comparator `order[a.risk_level] - order[b.risk_level]`
induces between two clauses. -/
def clauseLE (a b : Clause) : Prop :=
  riskOrder a.risk_level ≤ riskOrder b.risk_level

instance : DecidableRel clauseLE := fun a b =>
  inferInstanceAs (Decidable (riskOrder a.risk_level ≤ riskOrder b.risk_level))

instance : IsTotal Clause clauseLE := ⟨fun _ _ => Nat.le_total _ _⟩

instance : IsTrans Clause clauseLE := ⟨fun _ _ _ h1 h2 => Nat.le_trans h1 h2⟩

/-- dashboard.js `renderClausesList`: `[...clauses].sort(comparator)`.
ECMAScript `Array.prototype.sort` is a stable sort, and with the consistent
comparator `order[a.risk_level] - order[b.risk_level]` its result is the
unique stable sort by `riskOrder`, realised here as a stable insertion
sort. -/
def sortClauses (clauses : List Clause) : List Clause :=
  List.insertionSort clauseLE clauses

/-- dashboard.js `filterClauses`: the hidden flag one clause item carries after
the filter tag `filt` is applied. `prevHidden` is the flag the item carried
before the call; an unrecognised tag leaves it untouched, matching the
fall-through of the if/else chain. -/
def clauseHidden (filt : String) (c : Clause) (prevHidden : Bool) : Bool :=
  if filt = "all" then false
  else if filt = "high" then decide (riskLevelLower c.risk_level ≠ "high")
  else if filt = "medium" then decide (riskLevelLower c.risk_level ≠ "medium")
  else if filt = "low" then decide (riskLevelLower c.risk_level ≠ "low")
  else if filt = "missing" then decide (riskLevelLower c.risk_level ≠ "not_found")
  else prevHidden

/-- The clause items left visible by `Dashboard.filterClauses filt` over a
rendered list whose items start unhidden. The DOM list itself is never
reordered; only the hidden class of each item changes. -/
def filterClauses (filt : String) (clauses : List Clause) : List Clause :=
  clauses.filter (fun c => ! clauseHidden filt c false)

/-- The two fields of a JS `File` object the upload validation reads. -/
structure JSFile where
  name : String
  size : Nat
  deriving DecidableEq, Repr

/-- app.js `handleFileUpload` size ceiling: `10 * 1024 * 1024` bytes. -/
def MAX_UPLOAD_SIZE : Nat := 10 * 1024 * 1024

/-- Outcome of the synchronous validation prologue of `App.handleFileUpload`:
either an early return with a `Toast.error` message (before `showSection`,
before any step emission and before any network call), or fall-through into
the upload pipeline. -/
inductive UploadValidation where
  | validationError (message : String)
  | proceed
  deriving DecidableEq, Repr

/-- app.js `handleFileUpload` validation prologue: reject unless the lowercased
name ends in `.pdf`, then reject if the size strictly exceeds the 10 MiB
ceiling. -/
def handleFileUploadValidate (f : JSFile) : UploadValidation :=
  if ! strEndsWith (strToLower f.name) ".pdf" then
    .validationError "Please upload a PDF file"
  else if f.size > MAX_UPLOAD_SIZE then
    .validationError "File size must be less than 10MB"
  else
    .proceed

/-- Whether the validation outcome reaches the `API.uploadFile` network call. -/
def uploadNetworkReached : UploadValidation → Bool
  | .validationError _ => false
  | .proceed => true

/-- The arguments `App.handleFileUpload` passes to `App.updateProcessingStep`,
in call order, for one run: nothing when validation rejects; otherwise the
reset to 0 and step 1 before the upload call, steps 2 and 3 when the upload
resolves, and steps 4 and 5 when the extraction resolves. The booleans stand
for the resolution of the two awaited network calls; a rejection jumps to
the catch block and emits no further step. -/
def handleFileUploadSteps (f : JSFile) (uploadOk extractOk : Bool) : List Nat :=
  match handleFileUploadValidate f with
  | .validationError _ => []
  | .proceed =>
      0 :: 1 ::
        (if uploadOk then
          2 :: 3 :: (if extractOk then [4, 5] else [])
        else [])

/-- app.js `updateProcessingStep`: the progress-bar percentage
`(stepNumber / 5) * 100`, exact for every emitted step, written over ℕ as
`stepNumber * 100 / 5`. -/
def stepPercentage (stepNumber : Nat) : Nat := stepNumber * 100 / 5

/-- Sender of one chat turn. -/
inductive Sender where
  | user
  | ai
  deriving DecidableEq, Repr

/-- One source reference attached to an assistant turn. -/
structure Source where
  clause_type : String
  risk_level : String
  deriving DecidableEq, Repr

/-- One message of the transcript rendered in `chatMessages`. -/
structure Turn where
  sender : Sender
  text : String
  sources : List Source
  deriving DecidableEq, Repr

/-- Body of a successful `/api/chat/` response. -/
structure ChatResponse where
  answer : String
  sources : List Source
  deriving DecidableEq, Repr

/-- The extraction result held in `APP_STATE.extractionData`, with the fields
the dashboard reads. -/
structure ExtractionResult where
  filename : String
  overall_risk_score : Int
  risk_level : String
  clauses : List Clause
  high_risk_count : Nat
  medium_risk_count : Nat
  low_risk_count : Nat
  missing_critical_count : Nat
  deriving DecidableEq, Repr

/-- The global `APP_STATE` of config.js together with the chat module's
`isProcessing` flag and the transcript rendered in the `chatMessages`
container. -/
structure AppChatState where
  currentDocId : Option String
  currentSessionId : Option String
  extractionData : Option ExtractionResult
  currentFilter : String
  isProcessing : Bool
  transcript : List Turn
  deriving DecidableEq, Repr

/-- Outcome of the synchronous prologue of `Chat.sendMessage`, up to the
`await API.sendChatMessage` boundary: the three early returns, or the state
as it stands when the network request is issued (flag set, user turn
appended optimistically, before the response resolves). -/
inductive SendStart where
  | emptyQueryError
  | noDocumentError
  | busyIgnored
  | started (next : AppChatState)
  deriving DecidableEq, Repr

/-- `Chat.sendMessage` up to the network call: trim the input, reject an empty
query (`Toast.error('Please enter a question')`), reject a missing
`APP_STATE.currentDocId` (`Toast.error('No document loaded')`), silently
return while `Chat.isProcessing` is set, else set the flag and append the
user turn. -/
def sendMessageStart (s : AppChatState) (rawInput : String) : SendStart :=
  let query := strTrim rawInput
  if query.isEmpty then .emptyQueryError
  else if s.currentDocId.isNone then .noDocumentError
  else if s.isProcessing then .busyIgnored
  else
    .started { s with
      isProcessing := true
      transcript := s.transcript ++ [{ sender := .user, text := query, sources := [] }] }

/-- Whether the prologue outcome issues the `API.sendChatMessage` network
request. -/
def sendStartNetworkCalled : SendStart → Bool
  | .started _ => true
  | _ => false

/-- The application state after the prologue: the early returns leave the
pre-call state untouched. -/
def sendStartState (s : AppChatState) : SendStart → AppChatState
  | .started next => next
  | _ => s

/-- The `Toast.error` message the prologue surfaces, if any; the busy early
return is silent. -/
def sendStartToast : SendStart → Option String
  | .emptyQueryError => some "Please enter a question"
  | .noDocumentError => some "No document loaded"
  | _ => none

/-- The synthetic apology turn `Chat.sendMessage` appends locally when the
request fails. -/
def apologyText : String :=
  "Sorry, I encountered an error processing your question. Please try again."

/-- `Chat.sendMessage` from the resolution of the awaited request onward:
on success the typing placeholder is replaced by the assistant turn with its
sources; on failure by the local apology turn; the `finally` block resets
`Chat.isProcessing` on both paths. -/
def sendMessageFinish (s : AppChatState) (resp : Except String ChatResponse) : AppChatState :=
  match resp with
  | .ok r =>
      { s with
        isProcessing := false
        transcript := s.transcript ++ [{ sender := .ai, text := r.answer, sources := r.sources }] }
  | .error _ =>
      { s with
        isProcessing := false
        transcript := s.transcript ++ [{ sender := .ai, text := apologyText, sources := [] }] }

/-- Result of one `Chat.clearChat` call: the state afterwards, whether the
`DELETE /api/chat/session/` request was issued, and whether the failure
toast was shown. -/
structure ClearOutcome where
  state : AppChatState
  networkCalled : Bool
  toastError : Bool
  deriving DecidableEq, Repr

/-- `Chat.clearChat`: early return without a session id; otherwise await the
remote deletion first (`remoteOk` is its resolution), truncate the local
transcript to the initial welcome markup only on success, and on failure
leave the transcript untouched and surface `Toast.error('Failed to clear
chat')`. The welcome markup carries no chat turns, so the truncated
transcript is the empty turn sequence. -/
def clearChat (s : AppChatState) (remoteOk : Bool) : ClearOutcome :=
  match s.currentSessionId with
  | none => ⟨s, false, false⟩
  | some _ =>
      if remoteOk then
        ⟨{ s with transcript := [] }, true, false⟩
      else
        ⟨s, true, true⟩

/-- app.js `resetApplication`: unbind the document, drop the extraction data,
regenerate the session id (`Utils.generateSessionId` is clock-and-random
driven, so the fresh id is a parameter here) and reset the filter to
`'all'`. The chat transcript container is not touched by this function. -/
def resetApplication (s : AppChatState) (freshSessionId : String) : AppChatState :=
  { s with
    currentDocId := none
    extractionData := none
    currentSessionId := some freshSessionId
    currentFilter := "all" }

/-- The server-side chat history of the current session: the backend keys
history by session id (`GET /api/chat/history/{sessionId}`), modelled as a
map from session ids to turn sequences. -/
def currentSessionHistory (s : AppChatState) (histories : String → List Turn) : List Turn :=
  match s.currentSessionId with
  | none => []
  | some sid => histories sid

/-- Sample found clause for concrete witnesses. -/
def sampleFound : Clause :=
  { clause_type := "Cap On Liability"
    found := true
    extracted_text := some "liability shall not exceed the fees paid"
    risk_score := 80
    risk_level := .HIGH }

/-- Sample missing clause for concrete witnesses. -/
def sampleMissing : Clause :=
  { clause_type := "Insurance"
    found := false
    extracted_text := none
    risk_score := 90
    risk_level := .NOT_FOUND }

/-- Sample application state with a bound document and session, an in-flight
chat request and one user turn. -/
def sampleBusyState : AppChatState :=
  { currentDocId := some "d1"
    currentSessionId := some "session_1"
    extractionData := none
    currentFilter := "all"
    isProcessing := true
    transcript := [{ sender := .user, text := "What is the cap?", sources := [] }] }

/-- Sample application state with no bound document and no request in
flight. -/
def sampleIdleState : AppChatState :=
  { currentDocId := none
    currentSessionId := some "session_1"
    extractionData := none
    currentFilter := "all"
    isProcessing := false
    transcript := [] }

/-! ## Theorems -/

/-- Normal form of `Utils.getRiskLevel`: the descending-threshold if/else
chain of config.js with the `RISK_CONFIG` minima inlined. -/
theorem getRiskLevel_eq (s : Int) :
    getRiskLevel s = if 60 ≤ s then "HIGH" else if 30 ≤ s then "MEDIUM" else "LOW" := rfl

/-- Claim C1: `Utils.getRiskLevel` tests bands in the order HIGH, then MEDIUM,
then LOW with inclusive lower bounds, so the six boundary scores classify as
stated; the mapping is total (always one of the three labels), scores below 0
fall in LOW and scores above 100 in HIGH, as the exact band characterisations
show. -/
theorem getRiskLevel_band_classification :
    getRiskLevel 60 = "HIGH" ∧ getRiskLevel 59 = "MEDIUM" ∧ getRiskLevel 30 = "MEDIUM" ∧
    getRiskLevel 29 = "LOW" ∧ getRiskLevel 0 = "LOW" ∧ getRiskLevel 100 = "HIGH" ∧
    (∀ s : Int, getRiskLevel s = "HIGH" ∨ getRiskLevel s = "MEDIUM" ∨ getRiskLevel s = "LOW") ∧
    (∀ s : Int, getRiskLevel s = "HIGH" ↔ 60 ≤ s) ∧
    (∀ s : Int, getRiskLevel s = "MEDIUM" ↔ (30 ≤ s ∧ s < 60)) ∧
    (∀ s : Int, getRiskLevel s = "LOW" ↔ s < 30) := by
  refine ⟨by decide, by decide, by decide, by decide, by decide, by decide, ?_, ?_, ?_, ?_⟩
  · intro s
    rw [getRiskLevel_eq]
    by_cases h1 : 60 ≤ s
    · simp [h1]
    · by_cases h2 : 30 ≤ s <;> simp [h1, h2]
  · intro s
    rw [getRiskLevel_eq]
    by_cases h1 : 60 ≤ s
    · simp [h1]
    · by_cases h2 : 30 ≤ s <;> simp [h1, h2]
  · intro s
    rw [getRiskLevel_eq]
    by_cases h1 : 60 ≤ s
    · simp [h1]
      try omega
    · by_cases h2 : 30 ≤ s <;> simp [h1, h2] <;> try omega
  · intro s
    rw [getRiskLevel_eq]
    by_cases h1 : 60 ≤ s
    · simp [h1]
      try omega
    · by_cases h2 : 30 ≤ s <;> simp [h1, h2] <;> try omega

/-- Filtering a clause list for one risk level commutes with `orderedInsert`:
the inserted clause lands in front of the filtered tail exactly when it has
that level, because every element it passes over has a strictly smaller
`riskOrder` key and thus a different level. -/
theorem filter_orderedInsert_level (lv : RiskLevel) (a : Clause) (l : List Clause) :
    (List.orderedInsert clauseLE a l).filter (fun c => decide (c.risk_level = lv)) =
      if a.risk_level = lv then
        a :: l.filter (fun c => decide (c.risk_level = lv))
      else
        l.filter (fun c => decide (c.risk_level = lv)) := by
  induction l with
  | nil =>
      by_cases h : a.risk_level = lv <;> simp [List.orderedInsert, h]
  | cons b t ih =>
      by_cases hab : clauseLE a b
      · by_cases ha : a.risk_level = lv <;>
          by_cases hb : b.risk_level = lv <;>
            simp [List.orderedInsert, hab, ha, hb]
      · by_cases ha : a.risk_level = lv
        · have hb : b.risk_level ≠ lv := by
            intro hb
            apply hab
            unfold clauseLE
            rw [ha, hb]
          simp [List.orderedInsert, hab, ha, hb, ih]
        · by_cases hb : b.risk_level = lv <;>
            simp [List.orderedInsert, hab, ha, hb, ih]

/-- The display sort preserves, for each risk level, the subsequence of
clauses carrying that level. -/
theorem filter_sortClauses (lv : RiskLevel) (l : List Clause) :
    (sortClauses l).filter (fun c => decide (c.risk_level = lv)) =
      l.filter (fun c => decide (c.risk_level = lv)) := by
  induction l with
  | nil => rfl
  | cons a t ih =>
      show (List.orderedInsert clauseLE a (List.insertionSort clauseLE t)).filter _ = _
      rw [filter_orderedInsert_level]
      by_cases h : a.risk_level = lv <;> simp [h, sortClauses] at ih ⊢ <;> rw [ih]

/-- Claim C2: `Dashboard.renderClausesList` sorts the clause list so that the
`riskOrder` keys (HIGH 0, MEDIUM 1, LOW 2, NOT_FOUND 3) are pairwise
non-decreasing — hence every HIGH clause precedes every MEDIUM clause,
every MEDIUM every LOW, and every LOW every NOT_FOUND; the sort is stable
(for each level the subsequence of clauses of that level is exactly the
upstream subsequence) and idempotent. -/
theorem sortClauses_sorted_stable_idempotent (l : List Clause) (lv : RiskLevel) :
    List.Pairwise (fun a b => riskOrder a.risk_level ≤ riskOrder b.risk_level) (sortClauses l) ∧
    (sortClauses l).filter (fun c => decide (c.risk_level = lv)) =
      l.filter (fun c => decide (c.risk_level = lv)) ∧
    sortClauses (sortClauses l) = sortClauses l := by
  refine ⟨List.sorted_insertionSort clauseLE l, filter_sortClauses lv l, ?_⟩
  exact List.Sorted.insertionSort_eq (List.sorted_insertionSort clauseLE l)

/-- Visibility under the `high` tag agrees with the HIGH risk level: the
lowercased level tag of a clause equals `"high"` exactly for HIGH clauses. -/
theorem not_clauseHidden_high (c : Clause) :
    (! clauseHidden "high" c false) = decide (c.risk_level = RiskLevel.HIGH) := by
  simp only [clauseHidden, riskLevelLower, riskLevelStr]
  cases h : c.risk_level <;> simp <;> decide

/-- Visibility under the `medium` tag agrees with the MEDIUM risk level. -/
theorem not_clauseHidden_medium (c : Clause) :
    (! clauseHidden "medium" c false) = decide (c.risk_level = RiskLevel.MEDIUM) := by
  simp only [clauseHidden, riskLevelLower, riskLevelStr]
  cases h : c.risk_level <;> simp <;> decide

/-- Visibility under the `low` tag agrees with the LOW risk level. -/
theorem not_clauseHidden_low (c : Clause) :
    (! clauseHidden "low" c false) = decide (c.risk_level = RiskLevel.LOW) := by
  simp only [clauseHidden, riskLevelLower, riskLevelStr]
  cases h : c.risk_level <;> simp <;> decide

/-- Visibility under the `missing` tag agrees with the NOT_FOUND risk level. -/
theorem not_clauseHidden_missing (c : Clause) :
    (! clauseHidden "missing" c false) = decide (c.risk_level = RiskLevel.NOT_FOUND) := by
  simp only [clauseHidden, riskLevelLower, riskLevelStr]
  cases h : c.risk_level <;> simp <;> decide

/-- Claim C3: `Dashboard.filterClauses` is a pure visibility predicate over the
sorted clause list. The tag `all` leaves the full sorted list visible;
`high`, `medium` and `low` leave exactly the clauses of that risk level
visible; `missing` leaves exactly the NOT_FOUND clauses — equivalently,
under the data-model invariant `risk_level = NOT_FOUND ↔ found = false`,
exactly the clauses with `found = false`; and for every tag the visible
list is a sublist of the sorted list, so filtering never reorders it. -/
theorem filterClauses_visibility (l : List Clause)
    (hinv : ∀ c ∈ l, c.risk_level = RiskLevel.NOT_FOUND ↔ c.found = false) :
    filterClauses "all" (sortClauses l) = sortClauses l ∧
    filterClauses "high" (sortClauses l) =
      (sortClauses l).filter (fun c => decide (c.risk_level = RiskLevel.HIGH)) ∧
    filterClauses "medium" (sortClauses l) =
      (sortClauses l).filter (fun c => decide (c.risk_level = RiskLevel.MEDIUM)) ∧
    filterClauses "low" (sortClauses l) =
      (sortClauses l).filter (fun c => decide (c.risk_level = RiskLevel.LOW)) ∧
    filterClauses "missing" (sortClauses l) =
      (sortClauses l).filter (fun c => decide (c.risk_level = RiskLevel.NOT_FOUND)) ∧
    filterClauses "missing" (sortClauses l) = (sortClauses l).filter (fun c => ! c.found) ∧
    (∀ filt : String, (filterClauses filt (sortClauses l)).Sublist (sortClauses l)) := by
  have hinvs : ∀ c ∈ sortClauses l, c.risk_level = RiskLevel.NOT_FOUND ↔ c.found = false := by
    intro c hc
    exact hinv c ((List.mem_insertionSort clauseLE).mp hc)
  refine ⟨?_, ?_, ?_, ?_, ?_, ?_, fun filt => List.filter_sublist _⟩
  · have : ∀ c ∈ sortClauses l, (! clauseHidden "all" c false) = true := by
      intro c _
      rfl
    rw [filterClauses, List.filter_congr this, List.filter_true]
  · exact List.filter_congr fun c _ => not_clauseHidden_high c
  · exact List.filter_congr fun c _ => not_clauseHidden_medium c
  · exact List.filter_congr fun c _ => not_clauseHidden_low c
  · exact List.filter_congr fun c _ => not_clauseHidden_missing c
  · refine List.filter_congr fun c hc => ?_
    rw [not_clauseHidden_missing c]
    rcases hf : c.found with _ | _
    · simp [(hinvs c hc).mpr hf]
    · have : c.risk_level ≠ RiskLevel.NOT_FOUND := by
        intro hnf
        rw [(hinvs c hc).mp hnf] at hf
        cases hf
      simp [this]

/-- Claim C3 witness: on a concrete two-clause list satisfying the data-model
invariant, the `missing` tag leaves exactly the unfound clause visible. -/
theorem filterClauses_visibility_witness :
    (∀ c ∈ [sampleFound, sampleMissing],
      c.risk_level = RiskLevel.NOT_FOUND ↔ c.found = false) ∧
    filterClauses "missing" (sortClauses [sampleFound, sampleMissing]) =
      (sortClauses [sampleFound, sampleMissing]).filter (fun c => ! c.found) :=
  ⟨by decide, ((filterClauses_visibility [sampleFound, sampleMissing]
      (by decide)).2.2.2.2.2).1⟩

/-- Claim C4: the validation prologue of `App.handleFileUpload` lets a file
through to the upload network call exactly when its lowercased name ends in
`.pdf` and its size is at most `10 * 1024 * 1024` bytes; a 0-byte
`contract.pdf` and a file of exactly 10 MiB both proceed, while `scan.png`
is rejected with the PDF validation message and never reaches the network
call. -/
theorem handleFileUpload_validation (f : JSFile) :
    (handleFileUploadValidate f = .proceed ↔
      (strEndsWith (strToLower f.name) ".pdf" = true ∧ f.size ≤ MAX_UPLOAD_SIZE)) ∧
    ((∃ m, handleFileUploadValidate f = .validationError m) ↔
      (strEndsWith (strToLower f.name) ".pdf" = false ∨ f.size > MAX_UPLOAD_SIZE)) ∧
    handleFileUploadValidate ⟨"contract.pdf", 0⟩ = .proceed ∧
    handleFileUploadValidate ⟨"contract.pdf", 10 * 1024 * 1024⟩ = .proceed ∧
    handleFileUploadValidate ⟨"scan.png", 0⟩ =
      .validationError "Please upload a PDF file" ∧
    uploadNetworkReached (handleFileUploadValidate ⟨"scan.png", 0⟩) = false ∧
    uploadNetworkReached (handleFileUploadValidate ⟨"contract.pdf", 0⟩) = true := by
  refine ⟨?_, ?_, by decide, by decide, by decide, by decide, by decide⟩ <;>
    rcases hb : strEndsWith (strToLower f.name) ".pdf" with _ | _ <;>
      by_cases hs : f.size > MAX_UPLOAD_SIZE <;>
        simp [handleFileUploadValidate, hb, hs] <;> omega

/-- Claim C7 counterexample: the successful run on a valid file emits the step
sequence 0, 1, 2, 3, 4, 5 — `handleFileUpload` resets the progress bar with
step 0 before the five stage steps — so the emitted sequence is not the
claimed 1, 2, 3, 4, 5. -/
theorem uploadSteps_include_reset_step :
    handleFileUploadSteps ⟨"contract.pdf", 2048⟩ true true = [0, 1, 2, 3, 4, 5] ∧
    handleFileUploadSteps ⟨"contract.pdf", 2048⟩ true true ≠ [1, 2, 3, 4, 5] := by
  constructor <;> decide

/-- Claim C7 (amended): across every successful run on a file that passes
validation, `App.handleFileUpload` emits the step indices 0, 1, 2, 3, 4, 5 —
the initial progress reset to 0, then the five stage steps 1..5 — strictly
increasing with no repeats or omissions, and each emission reports the
progress percentage `step/5 * 100`, so the reported percentages
0, 20, 40, 60, 80, 100 are monotonically non-decreasing with no fractional
sub-step progress. -/
theorem uploadSteps_strictly_increasing (f : JSFile)
    (h : handleFileUploadValidate f = .proceed) :
    handleFileUploadSteps f true true = [0, 1, 2, 3, 4, 5] ∧
    List.Pairwise (fun a b => a < b) (handleFileUploadSteps f true true) ∧
    (handleFileUploadSteps f true true).Nodup ∧
    (handleFileUploadSteps f true true).map stepPercentage = [0, 20, 40, 60, 80, 100] ∧
    List.Pairwise (fun a b => a ≤ b) ((handleFileUploadSteps f true true).map stepPercentage) := by
  have ht : handleFileUploadSteps f true true = [0, 1, 2, 3, 4, 5] := by
    unfold handleFileUploadSteps
    rw [h]
    decide
  refine ⟨ht, ?_, ?_, ?_, ?_⟩ <;> rw [ht] <;> decide

/-- Claim C7 witness: a 2 MiB `msa.pdf` passes validation, and its successful
run emits exactly the steps 0 through 5. -/
theorem uploadSteps_strictly_increasing_witness :
    handleFileUploadValidate ⟨"msa.pdf", 2 * 1024 * 1024⟩ = .proceed ∧
    handleFileUploadSteps ⟨"msa.pdf", 2 * 1024 * 1024⟩ true true = [0, 1, 2, 3, 4, 5] :=
  ⟨by decide, (uploadSteps_strictly_increasing ⟨"msa.pdf", 2 * 1024 * 1024⟩ (by decide)).1⟩

/-- Claim C5: while one `Chat.sendMessage` call is outstanding
(`isProcessing = true`), any further call issues no second network request
and leaves the state untouched; with a valid query and a bound document it
hits exactly the silent busy early-return. After the outstanding call
resolves — success or failure — the `finally` block has reset the flag, and
a subsequent call with a valid query and bound document is accepted and
issues its network request. -/
theorem sendMessage_single_flight (s : AppChatState) (q : String)
    (resp : Except String ChatResponse) (hbusy : s.isProcessing = true) :
    sendStartNetworkCalled (sendMessageStart s q) = false ∧
    sendStartState s (sendMessageStart s q) = s ∧
    ((strTrim q).isEmpty = false → s.currentDocId.isSome = true →
      sendMessageStart s q = .busyIgnored) ∧
    (sendMessageFinish s resp).isProcessing = false ∧
    ((strTrim q).isEmpty = false → s.currentDocId.isSome = true →
      sendStartNetworkCalled (sendMessageStart (sendMessageFinish s resp) q) = true) := by
  refine ⟨?_, ?_, ?_, ?_, ?_⟩
  · cases hq : (strTrim q).isEmpty <;> cases hd : s.currentDocId <;>
      simp [sendMessageStart, sendStartNetworkCalled, hq, hd, hbusy]
  · cases hq : (strTrim q).isEmpty <;> cases hd : s.currentDocId <;>
      simp [sendMessageStart, sendStartState, hq, hd, hbusy]
  · intro hq hdoc
    rcases Option.isSome_iff_exists.mp hdoc with ⟨d, hd⟩
    simp [sendMessageStart, hq, hd, hbusy]
  · cases resp <;> rfl
  · intro hq hdoc
    rcases Option.isSome_iff_exists.mp hdoc with ⟨d, hd⟩
    cases resp <;>
      simp [sendMessageFinish, sendMessageStart, sendStartNetworkCalled, hq, hd]

/-- Claim C5 witness: on a concrete busy state the second call is silently
rejected, and after the outstanding call fails the next call is accepted. -/
theorem sendMessage_single_flight_witness :
    sampleBusyState.isProcessing = true ∧
    sendMessageStart sampleBusyState "Is there a cap?" = .busyIgnored ∧
    sendStartNetworkCalled
      (sendMessageStart (sendMessageFinish sampleBusyState (.error "boom"))
        "Is there a cap?") = true :=
  ⟨rfl,
    (sendMessage_single_flight sampleBusyState "Is there a cap?" (.error "boom")
      rfl).2.2.1 (by decide) (by decide),
    (sendMessage_single_flight sampleBusyState "Is there a cap?" (.error "boom")
      rfl).2.2.2.2 (by decide) (by decide)⟩

/-- Claim C6: `Chat.clearChat` first issues the remote session deletion; on
success the local transcript is truncated to the initial welcome state with
every other field untouched, while on remote failure the whole state — in
particular the transcript — is left identical to its pre-call value and the
failure toast is surfaced. -/
theorem clearChat_remote_first (s : AppChatState) (hsid : s.currentSessionId.isSome = true) :
    (clearChat s true).networkCalled = true ∧
    (clearChat s true).state = { s with transcript := [] } ∧
    (clearChat s true).toastError = false ∧
    (clearChat s false).networkCalled = true ∧
    (clearChat s false).state = s ∧
    (clearChat s false).state.transcript = s.transcript ∧
    (clearChat s false).toastError = true := by
  rcases Option.isSome_iff_exists.mp hsid with ⟨sid, hd⟩
  simp [clearChat, hd]

/-- Claim C6 witness: on a concrete state with a bound session, a failed
remote deletion leaves the state byte-for-byte identical. -/
theorem clearChat_remote_first_witness :
    sampleBusyState.currentSessionId.isSome = true ∧
    (clearChat sampleBusyState false).state = sampleBusyState ∧
    (clearChat sampleBusyState true).state.transcript = [] :=
  ⟨rfl,
    (clearChat_remote_first sampleBusyState rfl).2.2.2.2.1,
    by rw [(clearChat_remote_first sampleBusyState rfl).2.1]⟩

/-- Claim C8: `Chat.sendMessage` requires a non-empty trimmed query and a bound
document id; an empty query fails fast with the inline
`Please enter a question` toast and a missing document with the
`No document loaded` toast, and in both cases no network request is issued
and the transcript — indeed the whole state — is unchanged. -/
theorem sendMessage_validation (s : AppChatState) (q : String) :
    ((strTrim q).isEmpty = true →
      sendMessageStart s q = .emptyQueryError ∧
      sendStartToast (sendMessageStart s q) = some "Please enter a question") ∧
    ((strTrim q).isEmpty = false → s.currentDocId = none →
      sendMessageStart s q = .noDocumentError ∧
      sendStartToast (sendMessageStart s q) = some "No document loaded") ∧
    ((strTrim q).isEmpty = true ∨ s.currentDocId = none →
      sendStartNetworkCalled (sendMessageStart s q) = false ∧
      sendStartState s (sendMessageStart s q) = s ∧
      (sendStartState s (sendMessageStart s q)).transcript = s.transcript) := by
  refine ⟨?_, ?_, ?_⟩
  · intro hq
    simp [sendMessageStart, hq, sendStartToast]
  · intro hq hd
    simp [sendMessageStart, hq, hd, sendStartToast]
  · intro hrej
    rcases hrej with hq | hd
    · simp [sendMessageStart, hq, sendStartNetworkCalled, sendStartState]
    · cases hq : (strTrim q).isEmpty <;>
        simp [sendMessageStart, hq, hd, sendStartNetworkCalled, sendStartState]

/-- Claim C8 witness: a whitespace-only query on a concrete state fails with
the empty-query error, and a real query without a bound document fails with
the no-document error. -/
theorem sendMessage_validation_witness :
    ((strTrim "   ").isEmpty = true ∧
      sendMessageStart sampleIdleState "   " = .emptyQueryError) ∧
    ((strTrim "What is the cap?").isEmpty = false ∧
      sampleIdleState.currentDocId = none ∧
      sendMessageStart sampleIdleState "What is the cap?" = .noDocumentError) :=
  ⟨⟨by decide, ((sendMessage_validation sampleIdleState "   ").1 (by decide)).1⟩,
    ⟨by decide, rfl,
      ((sendMessage_validation sampleIdleState "What is the cap?").2.1
        (by decide) rfl).1⟩⟩

/-- Claim C9: `App.resetApplication` unbinds the document, discards the
extraction data, resets the filter to `all` and regenerates the session id;
since the backend keys chat history by session id and the regenerated id is
fresh, the chat history of the current session is implicitly cleared by the
rebinding. -/
theorem resetApplication_resets (s : AppChatState) (freshId : String)
    (histories : String → List Turn)
    (hne : s.currentSessionId ≠ some freshId) (hfresh : histories freshId = []) :
    (resetApplication s freshId).currentDocId = none ∧
    (resetApplication s freshId).extractionData = none ∧
    (resetApplication s freshId).currentFilter = "all" ∧
    (resetApplication s freshId).currentSessionId = some freshId ∧
    (resetApplication s freshId).currentSessionId ≠ s.currentSessionId ∧
    currentSessionHistory (resetApplication s freshId) histories = [] := by
  refine ⟨rfl, rfl, rfl, rfl, ?_, ?_⟩
  · exact fun h => hne h.symm
  · simpa [currentSessionHistory, resetApplication] using hfresh

/-- Claim C9 witness: resetting a concrete state with a fresh session id
rebinds the id, unbinds the document and leaves the fresh session with an
empty history. -/
theorem resetApplication_resets_witness :
    sampleBusyState.currentSessionId ≠ some "session_2" ∧
    (resetApplication sampleBusyState "session_2").currentSessionId = some "session_2" ∧
    (resetApplication sampleBusyState "session_2").currentDocId = none ∧
    currentSessionHistory (resetApplication sampleBusyState "session_2") (fun _ => []) = [] :=
  ⟨by decide,
    (resetApplication_resets sampleBusyState "session_2" (fun _ => [])
      (by decide) rfl).2.2.2.1,
    (resetApplication_resets sampleBusyState "session_2" (fun _ => [])
      (by decide) rfl).1,
    (resetApplication_resets sampleBusyState "session_2" (fun _ => [])
      (by decide) rfl).2.2.2.2.2⟩

/-- Claim C10: `Utils.getRiskColor` is total: every level string outside the
three configured keys — including the NOT_FOUND tag the dashboard passes
for missing clauses and for the overall risk level — maps to the gray
fallback, and each configured tier maps to its configured color. -/
theorem getRiskColor_total (lv : String)
    (h : lv ≠ "HIGH" ∧ lv ≠ "MEDIUM" ∧ lv ≠ "LOW") :
    getRiskColor lv = "#6b7280" ∧
    getRiskColor "HIGH" = "#ef4444" ∧
    getRiskColor "MEDIUM" = "#f59e0b" ∧
    getRiskColor "LOW" = "#10b981" ∧
    getRiskColor (riskLevelStr RiskLevel.NOT_FOUND) = "#6b7280" := by
  refine ⟨?_, by decide, by decide, by decide, by decide⟩
  simp [getRiskColor, h.1, h.2.1, h.2.2]

/-- Claim C10 witness: the NOT_FOUND tag is outside the configured keys and
maps to the gray fallback. -/
theorem getRiskColor_total_witness :
    (("NOT_FOUND" : String) ≠ "HIGH" ∧ ("NOT_FOUND" : String) ≠ "MEDIUM" ∧
      ("NOT_FOUND" : String) ≠ "LOW") ∧
    getRiskColor "NOT_FOUND" = "#6b7280" :=
  ⟨by decide, (getRiskColor_total "NOT_FOUND" (by decide)).1⟩

end ContractIQ
